import Mathlib

/-!
Verification of the Calgary 3D dashboard backend (`src/backend/data_fetch.py`).

Shallow-embedding conventions:
* Python/JSON values are modelled by `PyVal`; Python truthiness by `PyVal.truthy`
  and the short-circuiting `a or b` by `pyOr` (on floats-or-None, `optOr`).
* Python floats are modelled by exact rationals (`ℚ`).  None of the verified
  claims depends on IEEE rounding, infinities or NaN, so `float(...)` parsing
  is modelled by an exact decimal/exponent parser (`parsePyFloat`); strings
  that Python would parse as `inf`/`nan` or with digit underscores are outside
  every claim and are rejected by the parser.
* Network fetches are modelled by passing the fetched feature lists (and the
  prebuilt spatial-join indexes) as explicit arguments; shapely geometries in
  the join indexes are modelled by `ShpGeom`, whose `contains` (exact
  containment) and `queryHit` (bounding-volume candidate test of the STRtree)
  are the geometry-library primitives.  The shapely polygon centroid is
  modelled by the exact area-weighted centroid of the extracted outer ring
  (the Normalizer drops holes and extra parts), with the code's
  exception-path fallback — the arithmetic mean of the vertices — taken for
  degenerate zero-area rings.
* Failure (`raise RuntimeError`) is modelled by `Except String`.
-/

/-- A Python/JSON value as it appears in feature properties and filters. -/
inductive PyVal where
  | none : PyVal
  | bool : Bool → PyVal
  | num : ℚ → PyVal
  | str : String → PyVal
  | list : List PyVal → PyVal
  | dict : List (String × PyVal) → PyVal

/-- Property maps (`dict` with string keys) are association lists. -/
abbrev Props : Type := List (String × PyVal)

/-- Python truthiness: `None`, `False`, `0`, `""` and empty containers are falsy. -/
def PyVal.truthy : PyVal → Bool
  | PyVal.none => false
  | PyVal.bool b => b
  | PyVal.num q => if q = 0 then false else true
  | PyVal.str s => if s = "" then false else true
  | PyVal.list xs => !xs.isEmpty
  | PyVal.dict kvs => !kvs.isEmpty

/-- Python's short-circuiting `a or b`: `a` when truthy, else `b`. -/
def pyOr (a b : PyVal) : PyVal :=
  if a.truthy then a else b

/-- Python `str(...)`.  The repr of containers is never examined by any claim
(no filter attribute resolves to a container in any verified statement), so it
is rendered by a fixed placeholder; numbers use the rational repr. -/
def PyVal.pyStr : PyVal → String
  | PyVal.none => "None"
  | PyVal.bool b => if b then "True" else "False"
  | PyVal.num q => toString q
  | PyVal.str s => s
  | PyVal.list _ => "[...]"
  | PyVal.dict _ => "dict-repr-unmodelled"

/-- `d.get(k)`: first binding of `k`, `None` when absent. -/
def dictGet (d : Props) (k : String) : PyVal :=
  match List.find? (fun kv => kv.1 == k) d with
  | some kv => kv.2
  | Option.none => PyVal.none

/-- Truthiness of a Python float-or-None (`Option ℚ`): `None` and `0.0` are falsy. -/
def optTruthy (x : Option ℚ) : Bool :=
  match x with
  | some q => if q = 0 then false else true
  | Option.none => false

/-- Python's `a or b` specialised to float-or-None operands. -/
def optOr (a b : Option ℚ) : Option ℚ :=
  if optTruthy a then a else b

/-- Strip leading and trailing whitespace (Python `str.strip()`); character
lists are used throughout the string layer so every step reduces in the kernel. -/
def trimChars (l : List Char) : List Char :=
  ((l.dropWhile Char.isWhitespace).reverse.dropWhile Char.isWhitespace).reverse

/-- ASCII lower-casing of one character, written as an explicit table so the
kernel can evaluate it. -/
def lowerChar (c : Char) : Char :=
  if c = 'A' then 'a' else if c = 'B' then 'b' else if c = 'C' then 'c'
  else if c = 'D' then 'd' else if c = 'E' then 'e' else if c = 'F' then 'f'
  else if c = 'G' then 'g' else if c = 'H' then 'h' else if c = 'I' then 'i'
  else if c = 'J' then 'j' else if c = 'K' then 'k' else if c = 'L' then 'l'
  else if c = 'M' then 'm' else if c = 'N' then 'n' else if c = 'O' then 'o'
  else if c = 'P' then 'p' else if c = 'Q' then 'q' else if c = 'R' then 'r'
  else if c = 'S' then 's' else if c = 'T' then 't' else if c = 'U' then 'u'
  else if c = 'V' then 'v' else if c = 'W' then 'w' else if c = 'X' then 'x'
  else if c = 'Y' then 'y' else if c = 'Z' then 'z' else c

/-- ASCII lower-casing (Python `str.lower()` restricted to the data in play). -/
def lowerChars (l : List Char) : List Char :=
  l.map lowerChar

/-- Split a character list on a separator character (Python `str.split(sep)`). -/
def splitOnChar (sep : Char) : List Char → List (List Char)
  | [] => [[]]
  | c :: rest =>
    let r := splitOnChar sep rest
    if c = sep then [] :: r
    else
      match r with
      | [] => [[c]]
      | h :: t => (c :: h) :: t

/-- Remove every occurrence of a character (Python `str.replace(ch, "")`). -/
def removeChar (ch : Char) (l : List Char) : List Char :=
  l.filter (fun c => !(c == ch))

/-- Digit run to a natural number; fails on empty or non-digit input. -/
def digitsVal (l : List Char) : Option ℕ :=
  if l.isEmpty then Option.none
  else if l.all Char.isDigit then
    some (l.foldl (fun a c => a * 10 + (c.toNat - 48)) 0)
  else Option.none

/-- Unsigned decimal mantissa `digits[.digits]`, `.digits`, or `digits.`. -/
def parseMantissaChars (l : List Char) : Option ℚ :=
  match splitOnChar '.' l with
  | [ip] => (digitsVal ip).map (fun n => (n : ℚ))
  | [ip, fp] =>
    if ip.isEmpty && fp.isEmpty then Option.none
    else
      let ipv : Option ℕ := if ip.isEmpty then some 0 else digitsVal ip
      let fpv : Option ℕ := if fp.isEmpty then some 0 else digitsVal fp
      match ipv, fpv with
      | some i, some f => some ((i : ℚ) + (f : ℚ) / ((10 : ℚ) ^ fp.length))
      | _, _ => Option.none
  | _ => Option.none

/-- Mantissa with an optional leading sign. -/
def parseSignedMantissaChars : List Char → Option ℚ
  | '-' :: rest => (parseMantissaChars rest).map Neg.neg
  | '+' :: rest => parseMantissaChars rest
  | l => parseMantissaChars l

/-- Signed integer (for exponents). -/
def parseSignedIntChars : List Char → Option ℤ
  | '-' :: rest => (digitsVal rest).map (fun n => -(n : ℤ))
  | '+' :: rest => (digitsVal rest).map (fun n => (n : ℤ))
  | l => (digitsVal l).map (fun n => (n : ℤ))

/-- Python `float(string)`: strip surrounding whitespace, case-insensitive
exponent, exact decimal semantics over `ℚ`. -/
def parsePyFloat (s : String) : Option ℚ :=
  let t := lowerChars (trimChars s.toList)
  match splitOnChar 'e' t with
  | [m] => parseSignedMantissaChars m
  | [m, ex] =>
    match parseSignedMantissaChars m, parseSignedIntChars ex with
    | some mq, some e => some (mq * (10 : ℚ) ^ e)
    | _, _ => Option.none
  | _ => Option.none

/-- `_as_float` (data_fetch.py:73-79): `None` stays `None`, numbers and
booleans convert, strings go through `float(...)` (no comma stripping);
any conversion failure yields `None`. -/
def _as_float : PyVal → Option ℚ
  | PyVal.none => Option.none
  | PyVal.num q => some q
  | PyVal.bool b => some (if b then 1 else 0)
  | PyVal.str s => parsePyFloat s
  | PyVal.list _ => Option.none
  | PyVal.dict _ => Option.none

/-- `_to_num` (data_fetch.py:365-374): numbers (and bools, which are `int`s in
Python) pass through; any other value is stringified, thousands-separator
commas removed, whitespace stripped, then parsed as a float; failure ⇒ `None`. -/
def _to_num : PyVal → Option ℚ
  | PyVal.none => Option.none
  | PyVal.num q => some q
  | PyVal.bool b => some (if b then 1 else 0)
  | x => parsePyFloat (String.mk (trimChars (removeChar ',' x.pyStr.toList)))

/-! ## Geometry, spatial joins, and the Building Assembler -/

/-- A coordinate pair (GeoJSON order: longitude/x first, latitude/y second). -/
abbrev Pt : Type := ℚ × ℚ

/-- GeoJSON geometry as consumed by `_extract_ring_coords`: a falsy/missing
geometry, a `Polygon` (list of rings), a `MultiPolygon` (list of polygons,
each a list of rings), or some other geometry type. -/
inductive Geometry where
  | none : Geometry
  | polygon : List (List Pt) → Geometry
  | multiPolygon : List (List (List Pt)) → Geometry
  | other : Geometry

/-- A fetched GeoJSON feature: geometry plus open-ended properties
(`f.get("geometry") or ...` / `f.get("properties") or ...` defaults are folded
into `Geometry.none` / the empty map). -/
structure RawFeature where
  geometry : Geometry
  properties : Props

/-- `_extract_ring_coords` (data_fetch.py:82-99): outer ring of a `Polygon`
(first ring, `None` if missing or empty) or of a `MultiPolygon` (first ring of
the first part, with the `IndexError` path giving `None`); anything else is
`None`. -/
def _extract_ring_coords : Geometry → Option (List Pt)
  | Geometry.none => Option.none
  | Geometry.polygon rings =>
    match rings with
    | [] => Option.none
    | ring :: _ => if ring.isEmpty then Option.none else some ring
  | Geometry.multiPolygon polys =>
    match polys with
    | [] => Option.none
    | poly :: _ =>
      match poly with
      | [] => Option.none
      | ring :: _ => some ring
  | Geometry.other => Option.none

/-- A shapely geometry held by a spatial-join index.  The geometry library's
primitives are the fields: `contains` is exact point containment and
`queryHit` is the STRtree bounding-volume candidate test (an STRtree query
returns a superset of the geometries containing the point). -/
structure ShpGeom where
  contains : Pt → Bool
  queryHit : Pt → Bool
  isEmpty : Bool

/-- Index construction (`_load_land_use_index` / `_load_assess_index`,
data_fetch.py:170-223): keep features with a parseable, non-empty geometry,
paired with their properties (the side table).  Features whose geometry is
missing or fails to parse are modelled by a `none` first component. -/
def buildIndex (feats : List (Option ShpGeom × Props)) : List (ShpGeom × Props) :=
  feats.filterMap (fun fp =>
    match fp.1 with
    | some g => if g.isEmpty then Option.none else some (g, fp.2)
    | Option.none => Option.none)

/-- The ordered zoning-attribute fallback chain of `_zoning_for_point`
(data_fetch.py:235-241), Python `or` semantics included. -/
def zoningChain (pr : Props) : PyVal :=
  pyOr (pyOr (pyOr (pyOr (dictGet pr "land_use_district") (dictGet pr "district"))
    (dictGet pr "lu_district")) (dictGet pr "code")) (dictGet pr "lud")

/-- The ordered assessed-value fallback chain of `_assessed_value_for_point`
(data_fetch.py:256-261). -/
def assessChain (pr : Props) : Option ℚ :=
  optOr (optOr (optOr (_as_float (dictGet pr "assessed_value"))
    (_as_float (dictGet pr "assessment"))) (_as_float (dictGet pr "total_assessed_value")))
    (_as_float (dictGet pr "value"))

/-- The query loop of `_zoning_for_point` (data_fetch.py:231-244): iterate the
STRtree candidates (entries whose `queryHit` fires), return the fallback chain
of the first entry that exactly contains the point, else `None`.  The `if not
tree: return None` shortcut for an empty index coincides with the empty loop. -/
def zoningScan (p : Pt) : List (ShpGeom × Props) → PyVal
  | [] => PyVal.none
  | e :: rest =>
    if e.1.queryHit p then
      if e.1.contains p then zoningChain e.2 else zoningScan p rest
    else zoningScan p rest

/-- `_zoning_for_point` (data_fetch.py:226-244) over a built index. -/
def _zoning_for_point (p : Pt) (idx : List (ShpGeom × Props)) : PyVal :=
  zoningScan p idx

/-- The query loop of `_assessed_value_for_point` (data_fetch.py:252-264). -/
def assessScan (p : Pt) : List (ShpGeom × Props) → Option ℚ
  | [] => Option.none
  | e :: rest =>
    if e.1.queryHit p then
      if e.1.contains p then assessChain e.2 else assessScan p rest
    else assessScan p rest

/-- `_assessed_value_for_point` (data_fetch.py:247-264) over a built index. -/
def _assessed_value_for_point (p : Pt) (idx : List (ShpGeom × Props)) : Option ℚ :=
  assessScan p idx

/-- Consecutive vertex pairs of a ring with wraparound. -/
def ringEdges (ring : List Pt) : List (Pt × Pt) :=
  match ring with
  | [] => []
  | p :: _ => ring.zip (ring.drop 1 ++ [p])

/-- The shapely polygon centroid (data_fetch.py:287-294), modelled as the
exact area-weighted centroid of the extracted outer ring (holes and further
parts were dropped by the normalizer); the exception fallback — the
arithmetic mean of the vertices — is taken for degenerate zero-area rings. -/
def ringCentroid (ring : List Pt) : Pt :=
  let pairs := ringEdges ring
  let cross := fun (pq : Pt × Pt) => pq.1.1 * pq.2.2 - pq.2.1 * pq.1.2
  let area2 := (pairs.map cross).sum
  if area2 = 0 then
    let n : ℚ := ring.length
    (((ring.map Prod.fst).sum) / n, ((ring.map Prod.snd).sum) / n)
  else
    ((pairs.map (fun pq => (pq.1.1 + pq.2.1) * cross pq)).sum / (3 * area2),
     (pairs.map (fun pq => (pq.1.2 + pq.2.2) * cross pq)).sum / (3 * area2))

/-- The height fallback chain (data_fetch.py:296-302): the first candidate
property converting to a truthy (nonzero) float, else the literal `10.0`
(Python `or` short-circuits on truthiness, not on `None`). -/
def resolveHeightOpt (props : Props) : Option ℚ :=
  optOr (optOr (optOr (optOr (_as_float (dictGet props "height"))
    (_as_float (dictGet props "bldg_height"))) (_as_float (dictGet props "building_height")))
    (_as_float (dictGet props "max_height"))) (some 10)

/-- The stored height `float(height or 0)` (data_fetch.py:327). -/
def resolveHeight (props : Props) : ℚ :=
  match resolveHeightOpt props with
  | some q => if q = 0 then 0 else q
  | Option.none => 0

/-- Raw-properties zoning fallback (data_fetch.py:304). -/
def rawZoning (props : Props) : PyVal :=
  pyOr (pyOr (dictGet props "zoning") (dictGet props "land_use")) (dictGet props "zone")

/-- Raw-properties address fallback (data_fetch.py:305). -/
def rawAddress (props : Props) : PyVal :=
  pyOr (pyOr (dictGet props "address") (dictGet props "street_address"))
    (dictGet props "full_address")

/-- Raw-properties assessed-value fallback (data_fetch.py:306-310). -/
def rawAssessed (props : Props) : Option ℚ :=
  optOr (optOr (_as_float (dictGet props "assessed_value"))
    (_as_float (dictGet props "assessment"))) (_as_float (dictGet props "value"))

/-- The id fallback chain (data_fetch.py:321): first truthy identifier
property, else the synthesized positional id `"b" ++ idx`. -/
def resolveId (props : Props) (idx : ℕ) : PyVal :=
  pyOr (pyOr (pyOr (dictGet props "id") (dictGet props "objectid"))
    (dictGet props "globalid")) (PyVal.str ("b" ++ toString idx))

/-- A canonical Building record as appended by `fetch_buildings`
(data_fetch.py:324-335). -/
structure Building where
  id : PyVal
  height : ℚ
  zoning : PyVal
  assessed_value : Option ℚ
  address : PyVal
  footprint_ll : List Pt
  footprint_xy : List Pt
  properties : Props

/-- The per-feature assembly body of `fetch_buildings` (data_fetch.py:285-335),
applied once the ring has been validated. -/
def mkBuilding (ez ea : Bool) (zi ai : List (ShpGeom × Props)) (ox oy : ℚ)
    (f : RawFeature) (idx : ℕ) (ring : List Pt) : Building :=
  let p_centroid := ringCentroid ring
  let zoning0 := rawZoning f.properties
  let assessed0 := rawAssessed f.properties
  { id := PyVal.str (resolveId f.properties idx).pyStr
    height := resolveHeight f.properties
    zoning := if ez then pyOr (_zoning_for_point p_centroid zi) zoning0 else zoning0
    assessed_value := if ea then optOr (_assessed_value_for_point p_centroid ai) assessed0
      else assessed0
    address := rawAddress f.properties
    footprint_ll := ring
    footprint_xy := ring.map (fun p => (p.1 - ox, p.2 - oy))
    properties := f.properties }

/-- Ring validation and assembly for a single feature: `None` exactly when the
feature is skipped by `if not ring or len(ring) < 3: continue`
(data_fetch.py:281-283). -/
def buildOne (ez ea : Bool) (zi ai : List (ShpGeom × Props)) (ox oy : ℚ)
    (f : RawFeature) (idx : ℕ) : Option Building :=
  match _extract_ring_coords f.geometry with
  | Option.none => Option.none
  | some ring =>
    if ring.length < 3 then Option.none
    else some (mkBuilding ez ea zi ai ox oy f idx ring)

/-- The enumerate-loop of `fetch_buildings` (data_fetch.py:277-338): every
feature consumes an index, valid buildings are appended in order, and the loop
breaks as soon as `len(buildings) >= limit` right after an append. -/
def assemble (ez ea : Bool) (zi ai : List (ShpGeom × Props)) (ox oy : ℚ) (limit : ℤ) :
    List RawFeature → ℕ → List Building → List Building
  | [], _, acc => acc
  | f :: rest, idx, acc =>
    match buildOne ez ea zi ai ox oy f idx with
    | Option.none => assemble ez ea zi ai ox oy limit rest (idx + 1) acc
    | some b =>
      let acc2 := acc ++ [b]
      if limit ≤ (acc2.length : ℤ) then acc2
      else assemble ez ea zi ai ox oy limit rest (idx + 1) acc2

/-- A bounding window. -/
structure BBox where
  south : ℚ
  west : ℚ
  north : ℚ
  east : ℚ

/-- `_bbox_center` (data_fetch.py:163-166): the window's geometric center. -/
def _bbox_center (bbox : BBox) : Pt :=
  ((bbox.west + bbox.east) / 2, (bbox.south + bbox.north) / 2)

/-- Default window (data_fetch.py:46-51, environment defaults). -/
def DEFAULT_BBOX : BBox :=
  { south := 51.046, west := -114.071, north := 51.049, east := -114.065 }

/-- Default return cap (data_fetch.py:53, environment default). -/
def RETURN_LIMIT : ℤ := 300

/-- The error message raised on an empty assembly (data_fetch.py:341). -/
def fetchEmptyMsg : String :=
  "0 buildings returned for this bbox. Try a bigger bbox or check dataset availability."

/-- The successful payload of `fetch_buildings` (data_fetch.py:343-353);
`origin_x`/`origin_y` are the `projection` entries.  The `geom_field_used`
entry is network metadata outside every claim and is not modelled. -/
structure Payload where
  bbox : BBox
  origin_x : ℚ
  origin_y : ℚ
  count : ℕ
  buildings : List Building

/-- `int(limit or RETURN_LIMIT)` (data_fetch.py:270): `None` and `0` are falsy. -/
def resolveLimit (limitArg : Option ℤ) : ℤ :=
  match limitArg with
  | Option.none => RETURN_LIMIT
  | some l => if l = 0 then RETURN_LIMIT else l

/-- Ring validation applied to a feature (data_fetch.py:281-283): a feature
passes iff its extracted ring exists and has at least 3 points. -/
def ringOk (f : RawFeature) : Bool :=
  match _extract_ring_coords f.geometry with
  | some ring => if ring.length < 3 then false else true
  | Option.none => false

/-- `fetch_buildings` (data_fetch.py:268-353).  The network fetch of the
bbox-filtered features and the two prebuilt join indexes are passed by the
caller; `bbox or DEFAULT_BBOX` and `int(limit or RETURN_LIMIT)` resolve the
optional arguments; a fully-skipped feature list raises (models
`RuntimeError`). -/
def fetch_buildings (features : List RawFeature) (zi ai : List (ShpGeom × Props))
    (bboxArg : Option BBox) (limitArg : Option ℤ) (ez ea : Bool) : Except String Payload :=
  let bbox := bboxArg.getD DEFAULT_BBOX
  let limit : ℤ := resolveLimit limitArg
  let c := _bbox_center bbox
  let bs := assemble ez ea zi ai c.1 c.2 limit features 0 []
  if bs.isEmpty then Except.error fetchEmptyMsg
  else Except.ok
    { bbox := bbox, origin_x := c.1, origin_y := c.2, count := bs.length, buildings := bs }

/-! ## Filter engine -/

/-- A caller-supplied filter: the dict with keys `attribute`, `operator`,
`value` (a missing key reads as `None`).  The first two key names are Lean
keywords, so the fields are `attr` and `op`. -/
structure PyFilter where
  attr : PyVal
  op : PyVal
  value : PyVal

/-- `str(f.get("attribute") or "").strip()` (data_fetch.py:378). -/
def resolvedAttr (f : PyFilter) : String :=
  String.mk (trimChars (if f.attr.truthy then f.attr.pyStr else "").toList)

/-- `str(f.get("operator") or "").strip().lower()` (data_fetch.py:379). -/
def resolvedOp (f : PyFilter) : String :=
  String.mk (lowerChars (trimChars (if f.op.truthy then f.op.pyStr else "").toList))

/-- `_get_attr` (data_fetch.py:357-362): top-level Building keys first, then
the raw properties map. -/
def _get_attr (b : Building) (attr : String) : PyVal :=
  if attr = "id" then b.id
  else if attr = "height" then PyVal.num b.height
  else if attr = "zoning" then b.zoning
  else if attr = "assessed_value" then
    match b.assessed_value with
    | some q => PyVal.num q
    | Option.none => PyVal.none
  else if attr = "address" then b.address
  else if attr = "footprint_ll" then
    PyVal.list (b.footprint_ll.map (fun p => PyVal.list [PyVal.num p.1, PyVal.num p.2]))
  else if attr = "footprint_xy" then
    PyVal.list (b.footprint_xy.map (fun p => PyVal.list [PyVal.num p.1, PyVal.num p.2]))
  else if attr = "properties" then PyVal.dict b.properties
  else dictGet b.properties attr

/-- The numeric operator dispatch of `_match_one` (data_fetch.py:393-405);
an unrecognized operator falls through to `False`. -/
def numericCompare (op : String) (a v : ℚ) : Bool :=
  if op = ">" ∨ op = "gt" then decide (v < a)
  else if op = ">=" ∨ op = "gte" then decide (v ≤ a)
  else if op = "<" ∨ op = "lt" then decide (a < v)
  else if op = "<=" ∨ op = "lte" then decide (a ≤ v)
  else if op = "=" ∨ op = "==" ∨ op = "eq" then decide (a = v)
  else if op = "!=" ∨ op = "neq" then decide (a ≠ v)
  else false

/-- Case-insensitive substring test (Python `v in a` on lower-cased strings). -/
def strContainsSub (hay needle : String) : Bool :=
  (List.range (hay.toList.length + 1)).any (fun i => needle.toList.isPrefixOf (hay.toList.drop i))

/-- Lower-case a string. -/
def lowerStr (s : String) : String :=
  String.mk (lowerChars s.toList)

/-- The string operator dispatch of `_match_one` (data_fetch.py:408-422);
all comparisons are on lower-cased forms; an unrecognized operator falls
through to `False`. -/
def stringCompare (op : String) (a_str v_str : String) : Bool :=
  if op = "contains" ∨ op = "includes" then strContainsSub (lowerStr a_str) (lowerStr v_str)
  else if op = "starts_with" ∨ op = "startswith" then
    (lowerStr v_str).toList.isPrefixOf (lowerStr a_str).toList
  else if op = "ends_with" ∨ op = "endswith" then
    (lowerStr v_str).toList.reverse.isPrefixOf (lowerStr a_str).toList.reverse
  else if op = "=" ∨ op = "==" ∨ op = "eq" then lowerStr a_str == lowerStr v_str
  else if op = "!=" ∨ op = "neq" then !(lowerStr a_str == lowerStr v_str)
  else false

/-- `_match_one` (data_fetch.py:377-422).  An empty/missing attribute or
operator makes the filter match unconditionally (`return True`); numeric
attributes coerce both operands through `_to_num` and fail the predicate when
either coercion fails; everything else uses string comparison. -/
def _match_one (b : Building) (f : PyFilter) : Bool :=
  let attr := resolvedAttr f
  let op := resolvedOp f
  if attr = "" ∨ op = "" then true
  else
    let actual := _get_attr b attr
    if attr = "height" ∨ attr = "assessed_value" then
      match _to_num actual, _to_num f.value with
      | some a, some v => numericCompare op a v
      | _, _ => false
    else
      let a_str := match actual with
        | PyVal.none => ""
        | x => x.pyStr
      let v_str := match f.value with
        | PyVal.none => ""
        | x => x.pyStr
      stringCompare op a_str v_str

/-- The inner conjunction loop of `compute_matched_ids` (data_fetch.py:430-434). -/
def allMatch (b : Building) : List PyFilter → Bool
  | [] => true
  | f :: rest => if _match_one b f then allMatch b rest else false

/-- The outer loop of `compute_matched_ids` (data_fetch.py:428-436). -/
def matchedLoop (filters : List PyFilter) : List Building → List String
  | [] => []
  | b :: rest =>
    if allMatch b filters then b.id.pyStr :: matchedLoop filters rest
    else matchedLoop filters rest

/-- `compute_matched_ids` (data_fetch.py:425-437).  Note the guard: an empty
filter list returns the empty id list, not all ids. -/
def compute_matched_ids (buildings : List Building) (filters : List PyFilter) : List String :=
  if filters.isEmpty then []
  else matchedLoop filters buildings

/-! ## Concrete fixtures shared by witnesses and counterexamples -/

instance {ε α : Type} [DecidableEq ε] [DecidableEq α] : DecidableEq (Except ε α) := fun a b =>
  match a, b with
  | Except.ok x, Except.ok y =>
    if h : x = y then Decidable.isTrue (by rw [h])
    else Decidable.isFalse (by intro hc; cases hc; exact h rfl)
  | Except.ok _, Except.error _ => Decidable.isFalse (by intro hc; cases hc)
  | Except.error _, Except.ok _ => Decidable.isFalse (by intro hc; cases hc)
  | Except.error e, Except.error e2 =>
    if h : e = e2 then Decidable.isTrue (by rw [h])
    else Decidable.isFalse (by intro hc; cases hc; exact h rfl)

/-- A square ring with vertices (0,0),(2,0),(2,2),(0,2); centroid (1,1). -/
def ringSq : List Pt := [(0, 0), (2, 0), (2, 2), (0, 2)]

/-- A join-index geometry containing every point (one all-covering polygon). -/
def geomAll : ShpGeom := { contains := fun _ => true, queryHit := fun _ => true, isEmpty := false }

/-- A simple concrete Building. -/
def bldg0 : Building :=
  { id := PyVal.str "A", height := 45, zoning := PyVal.str "RC-G",
    assessed_value := some 100, address := PyVal.none,
    footprint_ll := ringSq, footprint_xy := ringSq, properties := [] }

/-- A simple concrete window with center (1,1). -/
def bbox0 : BBox := { south := 0, west := 0, north := 2, east := 2 }

/-- The spec's worked numeric filter: `height gt "30"`. -/
def fltHeightGt30 : PyFilter :=
  { attr := PyVal.str "height", op := PyVal.str "gt", value := PyVal.str "30" }

/-- A valid square feature with a raw assessed value of 100. -/
def featAV100 : RawFeature :=
  { geometry := Geometry.polygon [ringSq], properties := [("assessed_value", PyVal.num 100)] }

/-- An assessment join index whose only polygon covers everything and resolves
to the (non-null but falsy) value 0 through the `value` fallback key. -/
def assIdx0 : List (ShpGeom × Props) := [(geomAll, [("value", PyVal.num 0)])]

/-- A valid square feature whose source id property is the string "A". -/
def featIdA : RawFeature :=
  { geometry := Geometry.polygon [ringSq], properties := [("id", PyVal.str "A")] }

/-- A valid square feature whose source id property is the (falsy) number 0. -/
def featId0 : RawFeature :=
  { geometry := Geometry.polygon [ringSq], properties := [("id", PyVal.num 0)] }

/-- A feature with a non-polygon geometry: it fails ring validation. -/
def featBad : RawFeature := { geometry := Geometry.other, properties := [] }

/-- An inert default payload for `Option.getD`. -/
def payloadDflt : Payload :=
  { bbox := bbox0, origin_x := 0, origin_y := 0, count := 0, buildings := [] }

/-- The payload produced by fetching the single feature `featAV100` in `bbox0`
with joins disabled. -/
def payloadW : Payload :=
  (fetch_buildings [featAV100] [] [] (some bbox0) Option.none false false).toOption.getD payloadDflt

/-- The operator spellings recognized by the numeric branch of `_match_one`
(data_fetch.py:393-404). -/
def numericOps : List String :=
  [">", "gt", ">=", "gte", "<", "lt", "<=", "lte", "=", "==", "eq", "!=", "neq"]

/-- The operator spellings recognized by the string branch of `_match_one`
(data_fetch.py:411-420). -/
def stringOps : List String :=
  ["contains", "includes", "starts_with", "startswith", "ends_with", "endswith",
   "=", "==", "eq", "!=", "neq"]

/-- The ordered height candidate property names (data_fetch.py:296-301). -/
def heightKeys : List String := ["height", "bldg_height", "building_height", "max_height"]

/-- The ordered zoning candidate property names of the join resolver
(data_fetch.py:235-241). -/
def zoningKeys : List String := ["land_use_district", "district", "lu_district", "code", "lud"]

/-! ## Helper lemmas -/

lemma pyOr_of_truthy {v : PyVal} (r : PyVal) (h : v.truthy = true) : pyOr v r = v := by
  simp [pyOr, h]

lemma pyOr_of_falsy {v : PyVal} (r : PyVal) (h : v.truthy = false) : pyOr v r = r := by
  simp [pyOr, h]

lemma optOr_of_truthy {v : Option ℚ} (r : Option ℚ) (h : optTruthy v = true) : optOr v r = v := by
  simp [optOr, h]

lemma optOr_of_falsy {v : Option ℚ} (r : Option ℚ) (h : optTruthy v = false) : optOr v r = r := by
  simp [optOr, h]

lemma pyOr_assoc (x y z : PyVal) : pyOr (pyOr x y) z = pyOr x (pyOr y z) := by
  by_cases h : x.truthy <;> by_cases h2 : y.truthy <;> simp [pyOr, h, h2]

lemma optOr_assoc (x y z : Option ℚ) : optOr (optOr x y) z = optOr x (optOr y z) := by
  by_cases h : optTruthy x <;> by_cases h2 : optTruthy y <;> simp [optOr, h, h2]

lemma pyOr_foldr (l : List PyVal) (z : PyVal) :
    l.foldr pyOr z =
      match l.find? PyVal.truthy with
      | some v => v
      | Option.none => z := by
  induction l with
  | nil => rfl
  | cons x xs ih =>
    by_cases h : x.truthy <;> simp [List.find?_cons, h, pyOr, ih]

lemma optOr_foldr (l : List (Option ℚ)) (z : Option ℚ) :
    l.foldr optOr z =
      match l.find? optTruthy with
      | some v => v
      | Option.none => z := by
  induction l with
  | nil => rfl
  | cons x xs ih =>
    by_cases h : optTruthy x <;> simp [List.find?_cons, h, optOr, ih]

lemma buildOne_some {ez ea : Bool} {zi ai : List (ShpGeom × Props)} {ox oy : ℚ}
    {f : RawFeature} {idx : ℕ} {b : Building}
    (h : buildOne ez ea zi ai ox oy f idx = some b) :
    ∃ ring, _extract_ring_coords f.geometry = some ring ∧ ¬ ring.length < 3 ∧
      b = mkBuilding ez ea zi ai ox oy f idx ring := by
  unfold buildOne at h
  split at h
  · cases h
  · rename_i ring hr
    split at h
    · cases h
    · rename_i hl
      injection h with h2
      exact ⟨ring, hr, hl, h2.symm⟩

lemma buildOne_none_of_invalid {f : RawFeature} (hf : ringOk f = false)
    (ez ea : Bool) (zi ai : List (ShpGeom × Props)) (ox oy : ℚ) (idx : ℕ) :
    buildOne ez ea zi ai ox oy f idx = Option.none := by
  unfold ringOk at hf
  unfold buildOne
  split
  · rfl
  · rename_i ring hr
    rw [hr] at hf
    dsimp only at hf
    by_cases hl : ring.length < 3
    · rw [if_pos hl]
    · rw [if_neg hl] at hf; cases hf

lemma assemble_cons_none {ez ea : Bool} {zi ai : List (ShpGeom × Props)} {ox oy : ℚ}
    {limit : ℤ} {f : RawFeature} {rest : List RawFeature} {idx : ℕ} {acc : List Building}
    (hbo : buildOne ez ea zi ai ox oy f idx = Option.none) :
    assemble ez ea zi ai ox oy limit (f :: rest) idx acc =
      assemble ez ea zi ai ox oy limit rest (idx + 1) acc := by
  conv_lhs => unfold assemble
  rw [hbo]

lemma assemble_cons_stop {ez ea : Bool} {zi ai : List (ShpGeom × Props)} {ox oy : ℚ}
    {limit : ℤ} {f : RawFeature} {rest : List RawFeature} {idx : ℕ} {acc : List Building}
    {b2 : Building} (hbo : buildOne ez ea zi ai ox oy f idx = some b2)
    (hl : limit ≤ ((acc ++ [b2]).length : ℤ)) :
    assemble ez ea zi ai ox oy limit (f :: rest) idx acc = acc ++ [b2] := by
  conv_lhs => unfold assemble
  rw [hbo]
  show (if limit ≤ ((acc ++ [b2]).length : ℤ) then acc ++ [b2]
    else assemble ez ea zi ai ox oy limit rest (idx + 1) (acc ++ [b2])) = _
  rw [if_pos hl]

lemma assemble_cons_go {ez ea : Bool} {zi ai : List (ShpGeom × Props)} {ox oy : ℚ}
    {limit : ℤ} {f : RawFeature} {rest : List RawFeature} {idx : ℕ} {acc : List Building}
    {b2 : Building} (hbo : buildOne ez ea zi ai ox oy f idx = some b2)
    (hl : ¬ limit ≤ ((acc ++ [b2]).length : ℤ)) :
    assemble ez ea zi ai ox oy limit (f :: rest) idx acc =
      assemble ez ea zi ai ox oy limit rest (idx + 1) (acc ++ [b2]) := by
  conv_lhs => unfold assemble
  rw [hbo]
  show (if limit ≤ ((acc ++ [b2]).length : ℤ) then acc ++ [b2]
    else assemble ez ea zi ai ox oy limit rest (idx + 1) (acc ++ [b2])) = _
  rw [if_neg hl]

lemma assemble_forall (ez ea : Bool) (zi ai : List (ShpGeom × Props)) (ox oy : ℚ) (limit : ℤ)
    (P : Building → Prop)
    (hP : ∀ f idx b, buildOne ez ea zi ai ox oy f idx = some b → P b) :
    ∀ feats idx acc, (∀ b ∈ acc, P b) →
      ∀ b ∈ assemble ez ea zi ai ox oy limit feats idx acc, P b := by
  intro feats
  induction feats with
  | nil => intro idx acc hacc b hb; exact hacc b hb
  | cons f rest ih =>
    intro idx acc hacc b hb
    cases hbo : buildOne ez ea zi ai ox oy f idx with
    | none =>
      rw [assemble_cons_none hbo] at hb
      exact ih (idx + 1) acc hacc b hb
    | some b2 =>
      have hext : ∀ x ∈ acc ++ [b2], P x := by
        intro x hx
        rcases List.mem_append.mp hx with hx | hx
        · exact hacc x hx
        · rw [List.mem_singleton.mp hx]
          exact hP f idx b2 hbo
      by_cases hl : limit ≤ ((acc ++ [b2]).length : ℤ)
      · rw [assemble_cons_stop hbo hl] at hb
        exact hext b hb
      · rw [assemble_cons_go hbo hl] at hb
        exact ih (idx + 1) (acc ++ [b2]) hext b hb

lemma assemble_skip_all (ez ea : Bool) (zi ai : List (ShpGeom × Props)) (ox oy : ℚ) (limit : ℤ) :
    ∀ feats idx acc, (∀ f ∈ feats, ringOk f = false) →
      assemble ez ea zi ai ox oy limit feats idx acc = acc := by
  intro feats
  induction feats with
  | nil => intro idx acc _; rfl
  | cons f rest ih =>
    intro idx acc hall
    rw [assemble_cons_none
      (buildOne_none_of_invalid (hall f (List.mem_cons_self f rest)) ez ea zi ai ox oy idx)]
    exact ih (idx + 1) acc (fun g hg => hall g (List.mem_cons_of_mem f hg))

lemma fetch_ok_inv {features : List RawFeature} {zi ai : List (ShpGeom × Props)}
    {bboxArg : Option BBox} {limitArg : Option ℤ} {ez ea : Bool} {p : Payload}
    (hp : fetch_buildings features zi ai bboxArg limitArg ez ea = Except.ok p) :
    p.origin_x = (_bbox_center (bboxArg.getD DEFAULT_BBOX)).1 ∧
    p.origin_y = (_bbox_center (bboxArg.getD DEFAULT_BBOX)).2 ∧
    p.buildings = assemble ez ea zi ai (_bbox_center (bboxArg.getD DEFAULT_BBOX)).1
      (_bbox_center (bboxArg.getD DEFAULT_BBOX)).2 (resolveLimit limitArg) features 0 [] ∧
    p.buildings ≠ [] := by
  unfold fetch_buildings at hp
  dsimp only at hp
  split at hp
  · cases hp
  · rename_i hne
    injection hp with h2
    subst h2
    refine ⟨rfl, rfl, rfl, ?_⟩
    intro hnil
    exact hne (List.isEmpty_iff.mpr hnil)

lemma allMatch_eq_all (b : Building) (fs : List PyFilter) :
    allMatch b fs = fs.all (fun f => _match_one b f) := by
  induction fs with
  | nil => rfl
  | cons f rest ih =>
    by_cases h : _match_one b f <;> simp [allMatch, List.all_cons, h, ih]

lemma matchedLoop_eq (fs : List PyFilter) :
    ∀ bs, matchedLoop fs bs =
      (bs.filter (fun b => allMatch b fs)).map (fun b => b.id.pyStr) := by
  intro bs
  induction bs with
  | nil => rfl
  | cons b rest ih =>
    by_cases h : allMatch b fs <;> simp [matchedLoop, List.filter_cons, h, ih]

lemma matchedLoop_nil_of (fs : List PyFilter) :
    ∀ bs, (∀ b ∈ bs, allMatch b fs = false) → matchedLoop fs bs = [] := by
  intro bs
  induction bs with
  | nil => intro _; rfl
  | cons b rest ih =>
    intro hall
    have hb := hall b (List.mem_cons_self b rest)
    simp [matchedLoop, hb]
    exact ih (fun x hx => hall x (List.mem_cons_of_mem b hx))

lemma map_sub_add (ox oy : ℚ) (l : List Pt) :
    (l.map (fun p => (p.1 - ox, p.2 - oy))).map (fun q => (q.1 + ox, q.2 + oy)) = l := by
  induction l with
  | nil => rfl
  | cons p rest ih =>
    simp only [List.map_cons, ih]
    congr 1
    have h1 : p.1 - ox + ox = p.1 := by ring
    have h2 : p.2 - oy + oy = p.2 := by ring
    rw [h1, h2]

/-! ## Claim C1 -/

/-- C1 counterexample.  As stated, the claim implies `compute_matched_ids`
over an empty filter list returns the ids of all Buildings; the code's guard
`if not filters: return []` (data_fetch.py:426) instead returns the empty
list on a one-building set whose only id string is "A". -/
theorem C1_counterexample :
    compute_matched_ids [bldg0] [] = [] ∧ [bldg0].map (fun b => b.id.pyStr) = ["A"] := by
  constructor <;> rfl

/-- C1 amended: for a nonempty filter list a Building's id is listed iff the
Building satisfies every filter (pure conjunction: `allMatch` is `List.all`
of `_match_one`); for the empty filter list `compute_matched_ids` returns the
empty id list, not all ids. -/
theorem C1_amended (bs : List Building) (fs : List PyFilter) :
    (fs = [] → compute_matched_ids bs fs = []) ∧
    (fs ≠ [] → compute_matched_ids bs fs =
      (bs.filter (fun b => fs.all (fun f => _match_one b f))).map (fun b => b.id.pyStr)) ∧
    (∀ b, allMatch b fs = fs.all (fun f => _match_one b f)) := by
  refine ⟨?_, ?_, fun b => allMatch_eq_all b fs⟩
  · intro h
    subst h
    rfl
  · intro h
    cases fs with
    | nil => exact absurd rfl h
    | cons f rest =>
      show matchedLoop (f :: rest) bs = _
      rw [matchedLoop_eq (f :: rest) bs]
      congr 1
      exact List.filter_congr (fun b _ => allMatch_eq_all b (f :: rest))

/-- C1 witness: the amended statement evaluated on a concrete one-building
set, with a nonempty filter list and the empty filter list. -/
theorem C1_witness :
    compute_matched_ids [bldg0] [] = [] ∧
    compute_matched_ids [bldg0] [fltHeightGt30] =
      ([bldg0].filter (fun b => [fltHeightGt30].all (fun f => _match_one b f))).map
        (fun b => b.id.pyStr) :=
  ⟨(C1_amended [bldg0] []).1 rfl,
   (C1_amended [bldg0] [fltHeightGt30]).2.1 (List.cons_ne_nil _ _)⟩

/-! ## Claim C2 -/

attribute [local semireducible] Rat.add Rat.mul Rat.inv Rat.sub Rat.ofScientific in
/-- C2 counterexample.  With the assessment join enabled, the join resolves
the centroid to the non-null value `0.0` (through the `value` fallback key),
yet the assembled Building keeps the raw-property value 100: Python `or`
short-circuits on truthiness, not on `None`, so a non-null falsy join result
does not take precedence. -/
theorem C2_counterexample :
    _assessed_value_for_point (ringCentroid ringSq) assIdx0 = some 0 ∧
    (fetch_buildings [featAV100] [] assIdx0 (some bbox0) Option.none false true).map
      (fun p => p.buildings.map (fun b => b.assessed_value)) = Except.ok [some 100] := by
  constructor <;> decide

/-- C2 amended: the spatial-join result takes precedence over the raw
properties exactly when it is truthy (non-null and nonzero/nonempty); a falsy
join result — `None`, `0.0`, or the empty string — leaves the raw-property
value in place.  The last conjunct ties the per-feature Assembler
(`mkBuilding`) back to `buildOne`. -/
theorem C2_amended :
    (∀ (ez ea : Bool) (zi ai : List (ShpGeom × Props)) (ox oy : ℚ)
      (f : RawFeature) (idx : ℕ) (ring : List Pt), ea = true →
      (mkBuilding ez ea zi ai ox oy f idx ring).assessed_value =
        optOr (_assessed_value_for_point (ringCentroid ring) ai) (rawAssessed f.properties)) ∧
    (∀ (ez ea : Bool) (zi ai : List (ShpGeom × Props)) (ox oy : ℚ)
      (f : RawFeature) (idx : ℕ) (ring : List Pt), ez = true →
      (mkBuilding ez ea zi ai ox oy f idx ring).zoning =
        pyOr (_zoning_for_point (ringCentroid ring) zi) (rawZoning f.properties)) ∧
    (∀ j r : Option ℚ, optTruthy j = true → optOr j r = j) ∧
    (∀ j r : Option ℚ, optTruthy j = false → optOr j r = r) ∧
    (∀ j r : PyVal, j.truthy = true → pyOr j r = j) ∧
    (∀ j r : PyVal, j.truthy = false → pyOr j r = r) ∧
    (∀ (ez ea : Bool) (zi ai : List (ShpGeom × Props)) (ox oy : ℚ)
      (f : RawFeature) (idx : ℕ) (b : Building),
      buildOne ez ea zi ai ox oy f idx = some b →
      ∃ ring, _extract_ring_coords f.geometry = some ring ∧
        b = mkBuilding ez ea zi ai ox oy f idx ring) := by
  refine ⟨?_, ?_, fun j r h => optOr_of_truthy r h, fun j r h => optOr_of_falsy r h,
    fun j r h => pyOr_of_truthy r h, fun j r h => pyOr_of_falsy r h, ?_⟩
  · intro ez ea zi ai ox oy f idx ring hea
    subst hea
    simp [mkBuilding]
  · intro ez ea zi ai ox oy f idx ring hez
    subst hez
    simp [mkBuilding]
  · intro ez ea zi ai ox oy f idx b h
    obtain ⟨ring, hr, _, hb⟩ := buildOne_some h
    exact ⟨ring, hr, hb⟩

attribute [local semireducible] Rat.add Rat.mul Rat.inv Rat.sub Rat.ofScientific in
/-- C2 witness: with joins enabled and a truthy join value 7, the assembled
Building stores the join value, overriding the raw value 100. -/
theorem C2_witness :
    (mkBuilding false true [] [(geomAll, [("value", PyVal.num 7)])] 0 0 featAV100 0
      ringSq).assessed_value = some 7 := by
  have h := C2_amended.1 false true [] [(geomAll, [("value", PyVal.num 7)])] 0 0 featAV100 0
    ringSq rfl
  rw [h]
  decide

/-! ## Claim C3 -/

attribute [local semireducible] Rat.add Rat.mul Rat.inv Rat.sub Rat.ofScientific in
/-- C3 counterexample.  Ids are indeed strings, but nothing enforces
uniqueness: two fetched features carrying the same source id property "A"
yield a successful payload whose two Buildings have equal id strings. -/
theorem C3_counterexample :
    (fetch_buildings [featIdA, featIdA] [] [] (some bbox0) Option.none false false).map
      (fun p => p.buildings.map (fun b => b.id.pyStr)) = Except.ok ["A", "A"] ∧
    ¬ (["A", "A"] : List String).Nodup := by
  constructor <;> decide

/-- C3 amended: every Building id in a successful `fetch_buildings` payload
is string-typed (`str(...)` is always applied), but distinctness is not
guaranteed — two features resolving to the same identifier value produce
equal id strings. -/
theorem C3_amended (features : List RawFeature) (zi ai : List (ShpGeom × Props))
    (bboxArg : Option BBox) (limitArg : Option ℤ) (ez ea : Bool) (p : Payload)
    (hp : fetch_buildings features zi ai bboxArg limitArg ez ea = Except.ok p)
    (i : ℕ) (hi : i < p.buildings.length) :
    ∃ s, (p.buildings.get ⟨i, hi⟩).id = PyVal.str s := by
  have hinv := fetch_ok_inv hp
  have hmem : p.buildings.get ⟨i, hi⟩ ∈ p.buildings := p.buildings.get_mem _ _
  generalize hg : p.buildings.get ⟨i, hi⟩ = b at hmem ⊢
  rw [hinv.2.2.1] at hmem
  refine assemble_forall ez ea zi ai _ _ (resolveLimit limitArg)
    (fun b => ∃ s, b.id = PyVal.str s) ?_ features 0 [] (by simp) _ hmem
  intro f idx b hb
  obtain ⟨ring, _, _, hbm⟩ := buildOne_some hb
  subst hbm
  exact ⟨(resolveId f.properties idx).pyStr, rfl⟩

attribute [local semireducible] Rat.add Rat.mul Rat.inv Rat.sub Rat.ofScientific in
/-- C3 witness: the string-typing part evaluated on a concrete single-feature
fetch. -/
theorem C3_witness : ∃ s, (payloadW.buildings.get ⟨0, by decide⟩).id = PyVal.str s :=
  C3_amended [featAV100] [] [] (some bbox0) Option.none false false payloadW rfl 0 (by decide)

/-! ## Claim C4 -/

/-- C4 confirmed: when every fetched feature fails ring validation the fetch
raises (`Except.error` with the source's message); a successful payload never
carries an empty buildings list; and a filter query matching no Building is a
valid (non-error) empty id list — `compute_matched_ids` is total and returns
`[]` there. -/
theorem C4_confirmed (features : List RawFeature) (zi ai : List (ShpGeom × Props))
    (bboxArg : Option BBox) (limitArg : Option ℤ) (ez ea : Bool) :
    ((∀ f ∈ features, ringOk f = false) →
      fetch_buildings features zi ai bboxArg limitArg ez ea = Except.error fetchEmptyMsg) ∧
    (∀ p, fetch_buildings features zi ai bboxArg limitArg ez ea = Except.ok p →
      p.buildings ≠ []) ∧
    (∀ (bs : List Building) (fs : List PyFilter), (∀ b ∈ bs, allMatch b fs = false) →
      compute_matched_ids bs fs = []) := by
  refine ⟨?_, fun p hp => (fetch_ok_inv hp).2.2.2, ?_⟩
  · intro hall
    unfold fetch_buildings
    dsimp only
    rw [assemble_skip_all ez ea zi ai _ _ (resolveLimit limitArg) features 0 [] hall]
    rfl
  · intro bs fs hall
    cases fs with
    | nil => rfl
    | cons f rest =>
      show matchedLoop (f :: rest) bs = []
      exact matchedLoop_nil_of (f :: rest) bs hall

attribute [local semireducible] Rat.add Rat.mul Rat.inv Rat.sub Rat.ofScientific in
/-- C4 witness: a single feature with a non-polygon geometry fails ring
validation, and the fetch errors; a nonempty filter list matching no Building
yields the empty id list. -/
theorem C4_witness :
    fetch_buildings [featBad] [] [] (some bbox0) Option.none false false =
      Except.error fetchEmptyMsg ∧
    compute_matched_ids [] [fltHeightGt30] = [] :=
  ⟨(C4_confirmed [featBad] [] [] (some bbox0) Option.none false false).1 (by decide),
   (C4_confirmed [] [] [] Option.none Option.none false false).2.2 [] [fltHeightGt30]
     (by intro b hb; cases hb)⟩

/-! ## Claim C5 -/

/-- C5 counterexample.  A filter whose attribute and operator are missing is
claimed to never match; the code instead returns `True` for it
(`if not attr or not op: return True`, data_fetch.py:382-383), so the
Building *does* satisfy the filter. -/
theorem C5_counterexample :
    _match_one bldg0 { attr := PyVal.none, op := PyVal.none, value := PyVal.none } = true := by
  decide

/-- C5 amended: a filter with an empty or missing attribute or operator is
skipped (it matches every Building, `True`); a filter with nonempty attribute
and a nonempty operator recognized by neither the numeric nor the string
branch never matches; evaluation is a total function (never raises). -/
theorem C5_amended (b : Building) (f : PyFilter) :
    (resolvedAttr f = "" ∨ resolvedOp f = "" → _match_one b f = true) ∧
    (resolvedAttr f ≠ "" → resolvedOp f ≠ "" → resolvedOp f ∉ numericOps →
      resolvedOp f ∉ stringOps → _match_one b f = false) := by
  constructor
  · intro h
    unfold _match_one
    dsimp only
    rw [if_pos h]
  · intro ha ho hn hs
    have hcond : ¬ (resolvedAttr f = "" ∨ resolvedOp f = "") := by
      push_neg
      exact ⟨ha, ho⟩
    simp only [numericOps, List.mem_cons, List.not_mem_nil, or_false] at hn
    push_neg at hn
    simp only [stringOps, List.mem_cons, List.not_mem_nil, or_false] at hs
    push_neg at hs
    unfold _match_one
    dsimp only
    rw [if_neg hcond]
    by_cases hattr : resolvedAttr f = "height" ∨ resolvedAttr f = "assessed_value"
    · rw [if_pos hattr]
      cases h1 : _to_num (_get_attr b (resolvedAttr f)) with
      | none => cases h2 : _to_num f.value <;> rfl
      | some a =>
        cases h2 : _to_num f.value with
        | none => rfl
        | some v =>
          obtain ⟨n1, n2, n3, n4, n5, n6, n7, n8, n9, n10, n11, n12, n13⟩ := hn
          simp [numericCompare, n1, n2, n3, n4, n5, n6, n7, n8, n9, n10, n11, n12, n13]
    · rw [if_neg hattr]
      obtain ⟨s1, s2, s3, s4, s5, s6, s7, s8, s9, s10, s11⟩ := hs
      simp [stringCompare, s1, s2, s3, s4, s5, s6, s7, s8, s9, s10, s11]

/-- C5 witness: the amended statement evaluated on a missing attribute (the
filter is skipped) and on an unrecognized operator `"max"` (no match). -/
theorem C5_witness :
    _match_one bldg0 ⟨PyVal.none, PyVal.str "gt", PyVal.none⟩ = true ∧
    _match_one bldg0 ⟨PyVal.str "zoning", PyVal.str "max", PyVal.str "x"⟩ = false :=
  ⟨(C5_amended bldg0 _).1 (Or.inl (by decide)),
   (C5_amended bldg0 _).2 (by decide) (by decide) (by decide) (by decide)⟩

/-! ## Claim C6 -/

attribute [local semireducible] Rat.add Rat.mul Rat.inv Rat.sub Rat.ofScientific in
/-- C6 counterexample.  A feature whose `height` property is the number 0
converts to the float `0.0`, yet the assembled height is the default 10.0
(the Python `or` chain skips falsy conversions); and a present but
non-numeric `height` also yields 10.0, so 10.0 does not hold *exactly when*
the candidates are absent. -/
theorem C6_counterexample :
    _as_float (dictGet [("height", PyVal.num 0)] "height") = some 0 ∧
    (fetch_buildings [⟨Geometry.polygon [ringSq], [("height", PyVal.num 0)]⟩]
      [] [] (some bbox0) Option.none false false).map
      (fun p => p.buildings.map (fun b => b.height)) = Except.ok [10] ∧
    resolveHeight [("height", PyVal.str "tall")] = 10 ∧
    dictGet [("height", PyVal.str "tall")] "height" ≠ PyVal.none := by
  refine ⟨by decide, by decide, by decide, ?_⟩
  intro h
  cases h

/-- C6 amended: the assembled height is the first candidate property whose
`_as_float` conversion is truthy (non-null and nonzero), and the constant
10.0 is used when no candidate converts to a nonzero float — in particular,
but not only, when all candidates are absent. -/
theorem C6_amended (props : Props) :
    (resolveHeight props =
      match (heightKeys.map (fun k => _as_float (dictGet props k))).find? optTruthy with
      | some (some q) => q
      | _ => 10) ∧
    (∀ (ez ea : Bool) (zi ai : List (ShpGeom × Props)) (ox oy : ℚ)
      (f : RawFeature) (idx : ℕ) (ring : List Pt),
      (mkBuilding ez ea zi ai ox oy f idx ring).height = resolveHeight f.properties) ∧
    ((∀ k ∈ heightKeys, dictGet props k = PyVal.none) → resolveHeight props = 10) := by
  have hfold : resolveHeightOpt props =
      (heightKeys.map (fun k => _as_float (dictGet props k))).foldr optOr (some 10) := by
    simp only [heightKeys, List.map_cons, List.map_nil, List.foldr]
    simp only [resolveHeightOpt, optOr_assoc]
  have hmain : resolveHeight props =
      match (heightKeys.map (fun k => _as_float (dictGet props k))).find? optTruthy with
      | some (some q) => q
      | _ => 10 := by
    unfold resolveHeight
    rw [hfold, optOr_foldr]
    cases hfind : (heightKeys.map (fun k => _as_float (dictGet props k))).find? optTruthy with
    | none => norm_num
    | some v =>
      have hv : optTruthy v = true := List.find?_some hfind
      cases v with
      | none => cases hv
      | some q =>
        have hq : ¬ q = 0 := by
          intro h0
          rw [h0] at hv
          simp [optTruthy] at hv
        simp [hq]
  refine ⟨hmain, fun ez ea zi ai ox oy f idx ring => rfl, ?_⟩
  intro habs
  rw [hmain]
  have h1 : dictGet props "height" = PyVal.none := habs _ (by simp [heightKeys])
  have h2 : dictGet props "bldg_height" = PyVal.none := habs _ (by simp [heightKeys])
  have h3 : dictGet props "building_height" = PyVal.none := habs _ (by simp [heightKeys])
  have h4 : dictGet props "max_height" = PyVal.none := habs _ (by simp [heightKeys])
  simp [heightKeys, h1, h2, h3, h4, _as_float, List.find?, optTruthy]

/-- C6 witness: with no candidate properties at all the assembled height is
the constant 10.0. -/
theorem C6_witness : resolveHeight [] = 10 :=
  (C6_amended []).2.2 (fun _ _ => rfl)

/-! ## Claim C7 -/

/-- C7 confirmed: on the numeric attributes `height`/`assessed_value`, both
operands pass through `_to_num` (thousands-separator commas stripped from
string inputs — the last conjunct is the comma-stripping equation); a failed
coercion on either side makes the predicate fail without raising; successful
coercions dispatch to the numeric comparison. -/
theorem C7_confirmed (b : Building) (f : PyFilter)
    (ha : resolvedAttr f = "height" ∨ resolvedAttr f = "assessed_value")
    (ho : resolvedOp f ≠ "") :
    ((_to_num (_get_attr b (resolvedAttr f)) = Option.none ∨ _to_num f.value = Option.none) →
      _match_one b f = false) ∧
    (∀ a v : ℚ, _to_num (_get_attr b (resolvedAttr f)) = some a → _to_num f.value = some v →
      _match_one b f = numericCompare (resolvedOp f) a v) ∧
    (∀ s : String,
      _to_num (PyVal.str s) = parsePyFloat (String.mk (trimChars (removeChar ',' s.toList)))) := by
  have hcond : ¬ (resolvedAttr f = "" ∨ resolvedOp f = "") := by
    push_neg
    refine ⟨?_, ho⟩
    rcases ha with h | h <;> rw [h] <;> decide
  refine ⟨?_, ?_, fun s => rfl⟩
  · intro hfail
    unfold _match_one
    dsimp only
    rw [if_neg hcond, if_pos ha]
    rcases hfail with h | h
    · rw [h]
    · rw [h]
      cases _to_num (_get_attr b (resolvedAttr f)) <;> rfl
  · intro a v h1 h2
    unfold _match_one
    dsimp only
    rw [if_neg hcond, if_pos ha, h1, h2]

attribute [local semireducible] Rat.add Rat.mul Rat.inv Rat.sub Rat.ofScientific in
/-- C7 witness: the spec's worked example — a Building with height 45.0
matches `height gt "30"` because the string value coerces numerically. -/
theorem C7_witness : _match_one bldg0 fltHeightGt30 = true := by
  have h := (C7_confirmed bldg0 fltHeightGt30 (Or.inl (by decide)) (by decide)).2.1
    45 30 (by decide) (by decide)
  rw [h]
  decide

/-! ## Claim C8 -/

/-- C8 counterexample.  A point inside exactly one indexed polygon whose
first candidate key `land_use_district` is present and non-null (the empty
string) is claimed to resolve to that first non-null value; the code instead
skips the falsy empty string and returns the later candidate `"X"`. -/
theorem C8_counterexample :
    _zoning_for_point (1, 1)
      [(geomAll, [("land_use_district", PyVal.str ""), ("district", PyVal.str "X")])] =
      PyVal.str "X" ∧
    dictGet [("land_use_district", PyVal.str ""), ("district", PyVal.str "X")]
      "land_use_district" = PyVal.str "" ∧
    PyVal.str "" ≠ PyVal.none := by
  refine ⟨rfl, rfl, ?_⟩
  intro h
  cases h

/-- C8 amended: when candidate pruning is sound (an STRtree query returns
every containing geometry) and the point lies in exactly one indexed polygon,
the join resolver returns that polygon's fallback chain — the first *truthy*
(non-null and nonempty) candidate value, else the raw value of the last key
`lud`; a point contained in no indexed polygon resolves to null, and the
Assembler then keeps the raw zoning (any falsy join result keeps the raw
value, which covers the raw-zoning fallback). -/
theorem C8_amended :
    (∀ (p : Pt) (idx : List (ShpGeom × Props)) (g : ShpGeom) (pr : Props),
      (∀ e ∈ idx, e.1.contains p = true → e.1.queryHit p = true) →
      (g, pr) ∈ idx → g.contains p = true →
      (∀ e ∈ idx, e.1.contains p = true → e = (g, pr)) →
      _zoning_for_point p idx = zoningChain pr) ∧
    (∀ (p : Pt) (idx : List (ShpGeom × Props)),
      (∀ e ∈ idx, e.1.contains p = false) → _zoning_for_point p idx = PyVal.none) ∧
    (∀ pr : Props, zoningChain pr =
      match (zoningKeys.map (fun k => dictGet pr k)).find? PyVal.truthy with
      | some v => v
      | Option.none => dictGet pr "lud") ∧
    (∀ (ez ea : Bool) (zi ai : List (ShpGeom × Props)) (ox oy : ℚ)
      (f : RawFeature) (idx : ℕ) (ring : List Pt), ez = true →
      _zoning_for_point (ringCentroid ring) zi = PyVal.none →
      (mkBuilding ez ea zi ai ox oy f idx ring).zoning = rawZoning f.properties) := by
  refine ⟨?_, ?_, ?_, ?_⟩
  · intro p idx
    induction idx with
    | nil => intro g pr _ hmem _ _; cases hmem
    | cons e rest ih =>
      intro g pr hsound hmem hcont huniq
      by_cases hc : e.1.contains p = true
      · have hq : e.1.queryHit p = true := hsound e (List.mem_cons_self e rest) hc
        have he : e = (g, pr) := huniq e (List.mem_cons_self e rest) hc
        show zoningScan p (e :: rest) = zoningChain pr
        subst he
        have hq2 : g.queryHit p = true := hq
        have hc2 : g.contains p = true := hc
        simp [zoningScan, hq2, hc2]
      · have hne : e ≠ (g, pr) := by
          intro he
          rw [he] at hc
          exact hc hcont
        have hmem2 : (g, pr) ∈ rest := by
          rcases List.mem_cons.mp hmem with h | h
          · exact absurd h.symm hne
          · exact h
        have hstep : zoningScan p (e :: rest) = zoningScan p rest := by
          by_cases hq : e.1.queryHit p = true <;> simp [zoningScan, hq, hc]
        show zoningScan p (e :: rest) = zoningChain pr
        rw [hstep]
        exact ih g pr (fun x hx hcx => hsound x (List.mem_cons_of_mem e hx) hcx) hmem2 hcont
          (fun x hx hcx => huniq x (List.mem_cons_of_mem e hx) hcx)
  · intro p idx hall
    induction idx with
    | nil => rfl
    | cons e rest ih =>
      have hc : e.1.contains p = false := hall e (List.mem_cons_self e rest)
      have hstep : zoningScan p (e :: rest) = zoningScan p rest := by
        by_cases hq : e.1.queryHit p = true <;> simp [zoningScan, hq, hc]
      show zoningScan p (e :: rest) = PyVal.none
      rw [hstep]
      exact ih (fun x hx => hall x (List.mem_cons_of_mem e hx))
  · intro pr
    by_cases h1 : (dictGet pr "land_use_district").truthy <;>
    by_cases h2 : (dictGet pr "district").truthy <;>
    by_cases h3 : (dictGet pr "lu_district").truthy <;>
    by_cases h4 : (dictGet pr "code").truthy <;>
    by_cases h5 : (dictGet pr "lud").truthy <;>
    simp [zoningChain, zoningKeys, pyOr, List.find?_cons, h1, h2, h3, h4, h5]
  · intro ez ea zi ai ox oy f idx ring hez hnone
    subst hez
    show pyOr (_zoning_for_point (ringCentroid ring) zi) (rawZoning f.properties) = _
    rw [hnone]
    rfl

/-- C8 witness: a concrete index with a single all-covering polygon whose
`district` key is "Z"; the resolver returns "Z" through the amended first
conjunct, and a point in no polygon resolves to null. -/
theorem C8_witness :
    _zoning_for_point (1, 1) [(geomAll, [("district", PyVal.str "Z")])] = PyVal.str "Z" ∧
    _zoning_for_point (1, 1) [] = PyVal.none := by
  constructor
  · have h := C8_amended.1 (1, 1) [(geomAll, [("district", PyVal.str "Z")])] geomAll
      [("district", PyVal.str "Z")]
      (fun e he _ => by rw [List.mem_singleton.mp he]; rfl)
      (List.mem_singleton.mpr rfl) rfl
      (fun e he _ => List.mem_singleton.mp he)
    rw [h]
    rfl
  · exact C8_amended.2.1 (1, 1) [] (fun e he => absurd he (List.not_mem_nil e))

/-! ## Claim C9 -/

/-- C9 confirmed: for a window with north > south and east > west, adding the
payload origin (the window center) back to every `footprint_xy` vertex of
every returned Building reproduces `footprint_ll` — exactly, since the
embedding works in exact rational arithmetic. -/
theorem C9_confirmed (features : List RawFeature) (zi ai : List (ShpGeom × Props))
    (bboxArg : Option BBox) (limitArg : Option ℤ) (ez ea : Bool) (p : Payload)
    (_hns : (bboxArg.getD DEFAULT_BBOX).south < (bboxArg.getD DEFAULT_BBOX).north)
    (_hew : (bboxArg.getD DEFAULT_BBOX).west < (bboxArg.getD DEFAULT_BBOX).east)
    (hp : fetch_buildings features zi ai bboxArg limitArg ez ea = Except.ok p)
    (i : ℕ) (hi : i < p.buildings.length) :
    (p.buildings.get ⟨i, hi⟩).footprint_xy.map
      (fun q => (q.1 + p.origin_x, q.2 + p.origin_y)) =
      (p.buildings.get ⟨i, hi⟩).footprint_ll := by
  have hinv := fetch_ok_inv hp
  have hmem : p.buildings.get ⟨i, hi⟩ ∈ p.buildings := p.buildings.get_mem _ _
  generalize hg : p.buildings.get ⟨i, hi⟩ = b at hmem ⊢
  rw [hinv.1, hinv.2.1]
  rw [hinv.2.2.1] at hmem
  have hP := assemble_forall ez ea zi ai (_bbox_center (bboxArg.getD DEFAULT_BBOX)).1
    (_bbox_center (bboxArg.getD DEFAULT_BBOX)).2 (resolveLimit limitArg)
    (fun b => b.footprint_xy = b.footprint_ll.map
      (fun q => (q.1 - (_bbox_center (bboxArg.getD DEFAULT_BBOX)).1,
                 q.2 - (_bbox_center (bboxArg.getD DEFAULT_BBOX)).2)))
    ?_ features 0 [] (by simp) b hmem
  · rw [hP, map_sub_add]
  · intro f idx b2 hb2
    obtain ⟨ring, _, _, hbm⟩ := buildOne_some hb2
    subst hbm
    rfl

attribute [local semireducible] Rat.add Rat.mul Rat.inv Rat.sub Rat.ofScientific in
/-- C9 witness: the round trip evaluated on a concrete fetch over `bbox0`
(center (1,1)), whose only Building is the unit-square feature. -/
theorem C9_witness :
    (payloadW.buildings.get ⟨0, by decide⟩).footprint_xy.map
      (fun q => (q.1 + payloadW.origin_x, q.2 + payloadW.origin_y)) =
      (payloadW.buildings.get ⟨0, by decide⟩).footprint_ll :=
  C9_confirmed [featAV100] [] [] (some bbox0) Option.none false false payloadW
    (by decide) (by decide) rfl 0 (by decide)

/-! ## Claim C10 -/

/-- C10 confirmed: when the identifier properties `id`, `objectid`,
`globalid` are all absent or falsy (for example the number 0 or the empty
string), the assembled Building's id is the synthesized positional string
`"b" ++ idx`. -/
theorem C10_confirmed (ez ea : Bool) (zi ai : List (ShpGeom × Props)) (ox oy : ℚ)
    (f : RawFeature) (idx : ℕ) (b : Building)
    (h : buildOne ez ea zi ai ox oy f idx = some b)
    (h1 : (dictGet f.properties "id").truthy = false)
    (h2 : (dictGet f.properties "objectid").truthy = false)
    (h3 : (dictGet f.properties "globalid").truthy = false) :
    b.id = PyVal.str ("b" ++ toString idx) := by
  obtain ⟨ring, _, _, hbm⟩ := buildOne_some h
  subst hbm
  show PyVal.str (resolveId f.properties idx).pyStr = _
  unfold resolveId
  rw [pyOr_of_falsy _ h1, pyOr_of_falsy _ h2, pyOr_of_falsy _ h3]
  rfl

attribute [local semireducible] Rat.add Rat.mul Rat.inv Rat.sub Rat.ofScientific in
/-- C10 witness: a feature whose source id property is the number 0 (falsy)
at index 0 is assigned the id string "b0", not "0". -/
theorem C10_witness :
    ((buildOne false false [] [] 1 1 featId0 0).getD bldg0).id = PyVal.str "b0" ∧
    PyVal.str "b0" ≠ PyVal.str "0" := by
  constructor
  · have h := C10_confirmed false false [] [] 1 1 featId0 0
      ((buildOne false false [] [] 1 1 featId0 0).getD bldg0) rfl
      (by decide) (by decide) (by decide)
    rw [h]
    rfl
  · intro hc
    injection hc with hs
    exact absurd hs (by decide)
